import Mathlib

/-!
Verification development for the notification subsystem of the
production-quality-tracker repository (`utils/notifications.py` together with
the schema and database helpers in `utils/data_models.py`).

The SQLite store is embedded shallowly: each table row used by the
notification code becomes a structure, the database becomes a `DB` record of
row lists, and each Python function becomes a Lean function threading the
`DB` state.  Exceptions that the Python code can encounter at the two INSERT
statements (the notification insert inside `create_notification` and the
audit insert inside `log_audit`) are modelled by two failure oracles carried
in `DB`: `insert_fails` lists the recipient user ids whose notification
INSERT raises, and `audit_fails` says whether an audit-log INSERT raises.
A raised exception surfaces exactly where the Python `try`/`except` blocks
would see it: `log_audit` itself has no handler, so it returns `Option DB`
(`none` = the exception propagates to the caller); the notification
functions wrap their bodies in `try`/`except` and return a success boolean.
`CURRENT_TIMESTAMP` is passed explicitly as a `now : Nat` argument.

One constraint of the schema matters to the audit path: `init_database`
declares `audit_log.user_id INTEGER NOT NULL` and
`audit_log.entity_id TEXT NOT NULL`, so an audit INSERT that binds `None`
to either column deterministically raises `IntegrityError`.  Both
`create_notification` and `mark_all_notifications_read` call `log_audit`
with `entity_id=None` (and `create_notification` may also pass a `None`
user), so their audit writes always raise and those functions always
return `False`; only `mark_notification_read`, which passes a non-null
user and notification id, can complete its audit write.  `log_audit`
models the constraint by returning `none` whenever either value is
missing, ahead of the environmental `audit_fails` oracle.
-/

namespace NotifTracker

/-- A value of the module-level `NOTIFICATION_TYPES` registry in
`utils/notifications.py`: icon, color, and the two templates. -/
structure TypeInfo where
  icon : String
  color : String
  title_template : String
  message_template : String
deriving DecidableEq, Repr

/-- A row of the `notifications` table as created by `init_database` in
`utils/data_models.py`: there is no priority column and no icon/color
columns; `read_at` is nullable (NULL while unread). -/
structure Notification where
  notification_id : Nat
  user_id : Nat
  title : String
  message : String
  notification_type : String
  entity_type : String
  entity_id : String
  created_at : Nat
  read_at : Option Nat
deriving DecidableEq, Repr

/-- The dictionary shape returned by `get_user_notifications`: the selected
columns (with `notification_type AS type`, `entity_type AS reference_type`,
`entity_id AS reference_id`) plus the `icon` and `color` keys attached by the
post-query enhancement loop. -/
structure DisplayNotification where
  notification_id : Nat
  type : String
  reference_type : String
  reference_id : String
  title : String
  message : String
  created_at : Nat
  read_at : Option Nat
  icon : String
  color : String
deriving DecidableEq, Repr

/-- A row of the `users` table, projected to the two columns the
notification code reads (`SELECT user_id FROM users WHERE role = ?`). -/
structure User where
  user_id : Nat
  role : String
deriving DecidableEq, Repr

/-- A row of the `audit_log` table as inserted by `log_audit` in
`utils/data_models.py`.  `user_id` and `entity_id` are NOT NULL in the
schema, so a stored row always carries both; `action_details` is
nullable. -/
structure AuditEntry where
  user_id : Nat
  action : String
  entity_type : String
  entity_id : Nat
  action_details : Option String
deriving DecidableEq, Repr

/-- The database state threaded through the notification functions, plus the
two exception oracles described in the module docstring. -/
structure DB where
  notifications : List Notification
  users : List User
  audit_log : List AuditEntry
  next_notification_id : Nat
  current_user : Option Nat
  insert_fails : List Nat
  audit_fails : Bool
deriving DecidableEq, Repr

/-- Association-list lookup, the embedding of a Python `dict.get` on the
registry (keys in `NOTIFICATION_TYPES` are distinct, so order is
irrelevant). -/
def lookupType (k : String) : List (String × TypeInfo) → Option TypeInfo
  | [] => none
  | (k2, v) :: rest => if k = k2 then some v else lookupType k rest

/-- The module-level `NOTIFICATION_TYPES` dict of `utils/notifications.py`,
entry for entry. -/
def NOTIFICATION_TYPES : List (String × TypeInfo) :=
  [ ("task_assigned",
      ⟨"📋", "#4CAF50", "New Task Assigned",
        "You have been assigned a new task: {details}"⟩),
    ("task_updated",
      ⟨"🔄", "#2196F3", "Task Updated",
        "Task has been updated: {details}"⟩),
    ("task_completed",
      ⟨"✅", "#4CAF50", "Task Completed",
        "Task has been marked as complete: {details}"⟩),
    ("issue_reported",
      ⟨"⚠️", "#FF9800", "New Quality Issue",
        "A new quality issue has been reported: {details}"⟩),
    ("issue_updated",
      ⟨"🔄", "#2196F3", "Quality Issue Updated",
        "A quality issue has been updated: {details}"⟩),
    ("issue_resolved",
      ⟨"✅", "#4CAF50", "Quality Issue Resolved",
        "A quality issue has been resolved: {details}"⟩),
    ("stage_completed",
      ⟨"🏁", "#4CAF50", "Production Stage Completed",
        "Production stage has been completed: {details}"⟩),
    ("inspection_required",
      ⟨"🔍", "#FF9800", "Inspection Required",
        "Product unit requires inspection: {details}"⟩),
    ("inspection_completed",
      ⟨"✓", "#4CAF50", "Inspection Completed",
        "Product inspection has been completed: {details}"⟩),
    ("mention",
      ⟨"@", "#9C27B0", "You were mentioned", "{details}"⟩),
    ("system",
      ⟨"🔔", "#607D8B", "System Notification", "{details}"⟩) ]

/-- The inline fallback dict passed to `NOTIFICATION_TYPES.get(...)` inside
`create_notification` for types missing from the registry. -/
def default_type_info : TypeInfo :=
  ⟨"🔔", "#607D8B", "Notification", "{details}"⟩

/-- `template.format(details=d)`, specialised to the placeholder name used by
every template in this module: a left-to-right single pass replacing each
literal occurrence of the placerholder with the replacement.  Defined on the
character list so the recursion is structural. -/
def substDetails (repl : List Char) : List Char → List Char
  | '{' :: 'd' :: 'e' :: 't' :: 'a' :: 'i' :: 'l' :: 's' :: '}' :: rest =>
      repl ++ substDetails repl rest
  | c :: rest => c :: substDetails repl rest
  | [] => []

/-- `template.format(details=details)` on strings. -/
def formatDetails (template details : String) : String :=
  ⟨substDetails details.data template.data⟩

/-- `log_audit` from `utils/data_models.py`.  It has no `try`/`except`:
any exception from the audit INSERT propagates to the caller, modelled as
`none`.  The INSERT raises deterministically (`IntegrityError`) when
`user_id` or `entity_id` is `None`, because both columns are NOT NULL in
the schema; a well-formed INSERT can still raise for environmental
reasons, the `audit_fails` oracle. -/
def log_audit (db : DB) (user_id : Option Nat) (action entity_type : String)
    (entity_id : Option Nat) : Option DB :=
  match entity_id, user_id with
  | some eid, some uid =>
      if db.audit_fails then
        none
      else
        some { db with
          audit_log := db.audit_log ++ [⟨uid, action, entity_type, eid, none⟩] }
  | _, _ => none

/-- `create_notification` from `utils/notifications.py`.  The registry is
the value of the module-level `NOTIFICATION_TYPES` dict at call time, passed
as a parameter.  Mirrors the source: resolve the templates (with the inline
fallback), INSERT the row (the schema supplies `read_at = NULL` and the
autoincrement id; the INSERT lists no priority column), then `log_audit`
with the current user and a NULL entity id; any exception is caught by the
surrounding handler, which returns `False`.  Because the audit call always
passes a NULL entity id into a NOT NULL column, the audit write always
raises, so the function can never reach `return True`.  The `priority`
argument is accepted exactly as in the source. -/
def create_notification (registry : List (String × TypeInfo)) (db : DB)
    (user_id : Nat) (notification_type reference_type : String)
    (reference_id : String) (details : Option String) (priority : String)
    (now : Nat) : Bool × DB :=
  let type_info := (lookupType notification_type registry).getD default_type_info
  let title := type_info.title_template
  let message := formatDetails type_info.message_template (details.getD "")
  if db.insert_fails.contains user_id then
    (false, db)
  else
    let row : Notification :=
      ⟨db.next_notification_id, user_id, title, message, notification_type,
        reference_type, reference_id, now, none⟩
    let db1 := { db with
      notifications := db.notifications ++ [row],
      next_notification_id := db.next_notification_id + 1 }
    match log_audit db1 db.current_user "create" "notification" none with
    | some db2 => (true, db2)
    | none => (false, db1)

/-- The `for user_id in user_ids` loop of `notify_multiple_users`: call
`create_notification` for every id, clearing the success flag on each
failure and never stopping early. -/
def notify_loop (registry : List (String × TypeInfo))
    (notification_type reference_type : String) (reference_id : String)
    (details : Option String) (priority : String) (now : Nat) :
    Bool × DB → List Nat → Bool × DB
  | acc, [] => acc
  | acc, u :: us =>
      let r := create_notification registry acc.2 u notification_type
        reference_type reference_id details priority now
      notify_loop registry notification_type reference_type reference_id
        details priority now (acc.1 && r.1, r.2) us

/-- `notify_multiple_users` from `utils/notifications.py`. -/
def notify_multiple_users (registry : List (String × TypeInfo)) (db : DB)
    (user_ids : List Nat) (notification_type reference_type : String)
    (reference_id : String) (details : Option String) (priority : String)
    (now : Nat) : Bool × DB :=
  notify_loop registry notification_type reference_type reference_id details
    priority now (true, db) user_ids

/-- `notify_by_role` from `utils/notifications.py`: select the user ids with
the given role; `if not users: return False`; otherwise delegate to
`notify_multiple_users`. -/
def notify_by_role (registry : List (String × TypeInfo)) (db : DB)
    (role : String) (notification_type reference_type : String)
    (reference_id : String) (details : Option String) (priority : String)
    (now : Nat) : Bool × DB :=
  let users := db.users.filter (fun u => u.role == role)
  if users.isEmpty then
    (false, db)
  else
    notify_multiple_users registry db (users.map (·.user_id))
      notification_type reference_type reference_id details priority now

/-- The row set selected by `get_user_notifications`' WHERE clause:
`user_id = ?` always, and `read_at IS NULL` unless `include_read`. -/
def notifFilter (user_id : Nat) (include_read : Bool) (n : Notification) : Bool :=
  n.user_id == user_id && (include_read || n.read_at.isNone)

/-- Insert one row into a list kept in `created_at DESC` order. -/
def insertByCreated (n : Notification) : List Notification → List Notification
  | [] => [n]
  | m :: ms =>
      if m.created_at ≤ n.created_at then n :: m :: ms
      else m :: insertByCreated n ms

/-- `ORDER BY created_at DESC` (the default `order_by` argument). -/
def sortByCreatedDesc : List Notification → List Notification
  | [] => []
  | n :: ns => insertByCreated n (sortByCreatedDesc ns)

/-- Icon chosen by the enhancement loop of `get_user_notifications` for a
stored type: the registry entry's icon, or the inline fallback for unknown
types. -/
def registryIcon (registry : List (String × TypeInfo)) (ty : String) : String :=
  match lookupType ty registry with
  | some ti => ti.icon
  | none => "🔔"

/-- Color chosen by the enhancement loop of `get_user_notifications`. -/
def registryColor (registry : List (String × TypeInfo)) (ty : String) : String :=
  match lookupType ty registry with
  | some ti => ti.color
  | none => "#607D8B"

/-- The per-row body of the enhancement loop in `get_user_notifications`:
select the row's columns (under their aliases) and attach `icon` and `color`
resolved from the registry as it stands at query time. -/
def enhance (registry : List (String × TypeInfo)) (n : Notification) :
    DisplayNotification :=
  ⟨n.notification_id, n.notification_type, n.entity_type, n.entity_id,
    n.title, n.message, n.created_at, n.read_at,
    registryIcon registry n.notification_type,
    registryColor registry n.notification_type⟩

/-- `get_user_notifications` from `utils/notifications.py`: filter by user
(and unread unless `include_read`), order by `created_at DESC`, apply
`LIMIT`, then enhance each row with icon and color from the registry at
query time. -/
def get_user_notifications (registry : List (String × TypeInfo)) (db : DB)
    (user_id : Nat) (limit : Nat) (include_read : Bool) :
    List DisplayNotification :=
  ((sortByCreatedDesc (db.notifications.filter (notifFilter user_id include_read))).take
      limit).map (enhance registry)

/-- `mark_notification_read` from `utils/notifications.py`.  The UPDATE has
no `read_at IS NULL` guard: every row with the given id gets
`read_at = CURRENT_TIMESTAMP`.  Then, if a user is logged in, the action is
audited (with the notification id, which is non-null). -/
def mark_notification_read (db : DB) (notification_id : Nat) (now : Nat) :
    Bool × DB :=
  let db1 := { db with
    notifications := db.notifications.map (fun n =>
      if n.notification_id == notification_id then { n with read_at := some now }
      else n) }
  match db.current_user with
  | some uid =>
      match log_audit db1 (some uid) "read" "notification" (some notification_id) with
      | some db2 => (true, db2)
      | none => (false, db1)
  | none => (true, db1)

/-- `mark_all_notifications_read` from `utils/notifications.py`: one bulk
UPDATE over `user_id = ? AND read_at IS NULL`, then an audit write.  The
row count returned by `execute_update` is discarded; the function returns a
boolean — always `False`, since its audit write binds a NULL entity id
into a NOT NULL column, raises, and is caught by the generic handler after
the UPDATE has committed. -/
def mark_all_notifications_read (db : DB) (user_id : Nat) (now : Nat) :
    Bool × DB :=
  let db1 := { db with
    notifications := db.notifications.map (fun n =>
      if n.user_id == user_id && n.read_at.isNone then { n with read_at := some now }
      else n) }
  match log_audit db1 (some user_id) "read_all" "notification" none with
  | some db2 => (true, db2)
  | none => (false, db1)

/-- The value `execute_update` computes and returns (`cursor.rowcount`) for
the bulk UPDATE inside `mark_all_notifications_read`: the number of rows
matching `user_id = ? AND read_at IS NULL`.  The source discards it. -/
def mark_all_rowcount (db : DB) (user_id : Nat) : Nat :=
  (db.notifications.filter (fun n => n.user_id == user_id && n.read_at.isNone)).length

/-- `get_unread_notification_count` from `utils/notifications.py`:
`COUNT(*)` over `user_id = ? AND read_at IS NULL`. -/
def get_unread_notification_count (db : DB) (user_id : Nat) : Nat :=
  (db.notifications.filter (fun n => n.user_id == user_id && n.read_at.isNone)).length

/-- Title resolved by `create_notification` for a type: the registry entry's
`title_template`, or the inline fallback's for unknown types. -/
def registryTitle (registry : List (String × TypeInfo)) (ty : String) : String :=
  ((lookupType ty registry).getD default_type_info).title_template

/-- Message template resolved by `create_notification` for a type. -/
def registryMessage (registry : List (String × TypeInfo)) (ty : String) : String :=
  ((lookupType ty registry).getD default_type_info).message_template

/-- The row that a successful pass through `create_notification` INSERTs:
next autoincrement id, the formatted title and message, and `read_at = NULL`
supplied by the schema. -/
def createdRow (registry : List (String × TypeInfo)) (db : DB) (u : Nat)
    (ty rty rid : String) (details : Option String) (now : Nat) : Notification :=
  ⟨db.next_notification_id, u, registryTitle registry ty,
    formatDetails (registryMessage registry ty) (details.getD ""),
    ty, rty, rid, now, none⟩

/-- Case analysis of `create_notification`: the notification INSERT can
raise (caught, `False`, nothing persisted); otherwise the row commits, and
the audit write — which binds `None` to the NOT NULL `entity_id` column —
always raises, so the function returns `False` with the committed row kept
and no audit row.  `create_notification` never returns `True`. -/
lemma create_notification_eq (registry : List (String × TypeInfo)) (db : DB)
    (u : Nat) (ty rty rid : String) (details : Option String)
    (priority : String) (now : Nat) :
    create_notification registry db u ty rty rid details priority now
      = if db.insert_fails.contains u then (false, db)
        else
          (false, { db with
            notifications := db.notifications ++ [createdRow registry db u ty rty rid details now],
            next_notification_id := db.next_notification_id + 1 }) := by
  unfold create_notification log_audit createdRow registryTitle registryMessage
  by_cases h1 : u ∈ db.insert_fails <;> simp [h1]

lemma length_insertByCreated (n : Notification) (l : List Notification) :
    (insertByCreated n l).length = l.length + 1 := by
  induction l with
  | nil => rfl
  | cons m ms ih =>
      unfold insertByCreated
      split
      · rfl
      · simp [ih]

lemma length_sortByCreatedDesc (l : List Notification) :
    (sortByCreatedDesc l).length = l.length := by
  induction l with
  | nil => rfl
  | cons n ns ih =>
      unfold sortByCreatedDesc
      rw [length_insertByCreated, ih]
      rfl

lemma mem_insertByCreated (m n : Notification) (l : List Notification) :
    m ∈ insertByCreated n l ↔ m = n ∨ m ∈ l := by
  induction l with
  | nil => simp [insertByCreated]
  | cons k ks ih =>
      unfold insertByCreated
      split
      · simp
      · simp [ih]
        tauto

lemma mem_sortByCreatedDesc (m : Notification) (l : List Notification) :
    m ∈ sortByCreatedDesc l ↔ m ∈ l := by
  induction l with
  | nil => simp [sortByCreatedDesc]
  | cons n ns ih =>
      unfold sortByCreatedDesc
      rw [mem_insertByCreated]
      simp [ih]

/-- Invariant of the `notify_multiple_users` loop: the insert oracle is
unchanged; the flag survives only over an empty recipient list, because
every `create_notification` call returns `False` (its audit write binds a
NULL entity id into a NOT NULL column and raises); the prior notification
list is preserved as a prefix of the final one; and every recipient whose
notification INSERT does not raise ends up with a matching persisted
notification — independently of failures for other recipients. -/
lemma notify_loop_spec (registry : List (String × TypeInfo)) (ty rty rid : String)
    (details : Option String) (priority : String) (now : Nat) (ids : List Nat) :
    ∀ (b : Bool) (db : DB),
      (notify_loop registry ty rty rid details priority now (b, db) ids).2.insert_fails
          = db.insert_fails
      ∧ (notify_loop registry ty rty rid details priority now (b, db) ids).1
          = (b && ids.isEmpty)
      ∧ (∃ tail, (notify_loop registry ty rty rid details priority now (b, db) ids).2.notifications
          = db.notifications ++ tail)
      ∧ (∀ u ∈ ids, db.insert_fails.contains u = false →
          ∃ n ∈ (notify_loop registry ty rty rid details priority now (b, db) ids).2.notifications,
            n.user_id = u ∧ n.notification_type = ty ∧ n.entity_type = rty ∧ n.entity_id = rid) := by
  induction ids with
  | nil =>
      intro b db
      exact ⟨rfl, by simp [notify_loop], ⟨[], by simp [notify_loop]⟩, by simp⟩
  | cons u us ih =>
      intro b db
      by_cases hu : u ∈ db.insert_fails
      · have hr : create_notification registry db u ty rty rid details priority now
            = (false, db) := by
          rw [create_notification_eq]; simp [hu]
        have hloop : notify_loop registry ty rty rid details priority now (b, db) (u :: us)
            = notify_loop registry ty rty rid details priority now (b && false, db) us := by
          simp only [notify_loop, hr]
        obtain ⟨h2, h3, ⟨tail, h4⟩, h5⟩ := ih (b && false) db
        rw [hloop]
        refine ⟨h2, ?_, ⟨tail, h4⟩, ?_⟩
        · rw [h3]; simp
        · intro v hv hcv
          rcases List.mem_cons.mp hv with rfl | hv2
          · exact absurd hcv (by simp [hu])
          · exact h5 v hv2 hcv
      · have hr : create_notification registry db u ty rty rid details priority now
            = (false, { db with
                notifications := db.notifications ++ [createdRow registry db u ty rty rid details now],
                next_notification_id := db.next_notification_id + 1 }) := by
          rw [create_notification_eq]; simp [hu]
        have hloop : notify_loop registry ty rty rid details priority now (b, db) (u :: us)
            = notify_loop registry ty rty rid details priority now
                (b && false, { db with
                  notifications := db.notifications ++ [createdRow registry db u ty rty rid details now],
                  next_notification_id := db.next_notification_id + 1 }) us := by
          simp only [notify_loop, hr]
        obtain ⟨h2, h3, ⟨tail, h4⟩, h5⟩ :=
          ih (b && false) { db with
            notifications := db.notifications ++ [createdRow registry db u ty rty rid details now],
            next_notification_id := db.next_notification_id + 1 }
        rw [hloop]
        refine ⟨h2, ?_, ?_, ?_⟩
        · rw [h3]; simp
        · exact ⟨createdRow registry db u ty rty rid details now :: tail, by
            rw [h4]; simp⟩
        · intro v hv hcv
          rcases List.mem_cons.mp hv with rfl | hv2
          · refine ⟨createdRow registry db v ty rty rid details now, ?_, rfl, rfl, rfl, rfl⟩
            rw [h4]
            exact List.mem_append_left _ (List.mem_append_right _ (List.mem_singleton.mpr rfl))
          · exact h5 v hv2 hcv

/-- `"{details}".format(details=s)` echoes `s` verbatim. -/
lemma formatDetails_default (s : String) : formatDetails "{details}" s = s := by
  cases s with
  | mk data =>
      show String.mk (substDetails data ("{details}".data)) = String.mk data
      have h : substDetails data ("{details}".data) = data ++ substDetails data [] := rfl
      rw [h]
      show String.mk (data ++ []) = String.mk data
      rw [List.append_nil]

/-- C1: the claim is false on the code.  The UPDATE in
`mark_notification_read` has no `read_at IS NULL` guard, so marking an
already-read notification again re-stamps `read_at`: starting from an
unread notification, marking it at time 5 stores `read_at = 5`, and a
second call at time 9 changes the stored value to 9 — calling `mark_read`
twice does not yield the same `read_at` as calling it once. -/
theorem C1_counterexample :
    (mark_notification_read
        ⟨[⟨1, 1, "T", "M", "system", "task", "1", 0, none⟩], [], [], 2, none, [], false⟩
        1 5).2.notifications
      = [⟨1, 1, "T", "M", "system", "task", "1", 0, some 5⟩]
    ∧ (mark_notification_read
        (mark_notification_read
          ⟨[⟨1, 1, "T", "M", "system", "task", "1", 0, none⟩], [], [], 2, none, [], false⟩
          1 5).2 1 9).2.notifications
      = [⟨1, 1, "T", "M", "system", "task", "1", 0, some 9⟩]
    ∧ some (9 : Nat) ≠ some 5 := by decide

/-- C1 amended: `mark_read` never errors and is a no-op on a non-existent
notification id, but on an existing notification it unconditionally
overwrites `read_at` with the current timestamp — so a second call at a
later time stores that later time, not the time of the first
acknowledgment. -/
theorem C1_amended (db : DB) (nid now now2 : Nat) (hcu : db.current_user = none) :
    (mark_notification_read db nid now).1 = true
    ∧ ((∀ n ∈ db.notifications, n.notification_id ≠ nid) →
        (mark_notification_read db nid now).2 = db)
    ∧ (mark_notification_read (mark_notification_read db nid now).2 nid now2).2.notifications
        = db.notifications.map (fun n =>
            if n.notification_id = nid then { n with read_at := some now2 } else n) := by
  refine ⟨?_, ?_, ?_⟩
  · simp [mark_notification_read, hcu]
  · intro h
    simp only [mark_notification_read, hcu]
    have hmap : db.notifications.map (fun n =>
        if n.notification_id == nid then { n with read_at := some now } else n)
        = db.notifications := by
      conv_rhs => rw [← List.map_id db.notifications]
      apply List.map_congr_left
      intro n hn
      simp [h n hn]
    rw [hmap, ← hcu]
  · simp only [mark_notification_read, hcu]
    rw [List.map_map]
    apply List.map_congr_left
    intro n _
    by_cases hn : n.notification_id = nid <;> simp [hn, Function.comp]

/-- C1 amended, instantiated: a notification already read at time 3 is
re-stamped to time 9 by a redundant call, and the redundant call is not an
error. -/
theorem C1_amended_witness :
    (mark_notification_read
        ⟨[⟨1, 1, "T", "M", "system", "task", "1", 0, some 3⟩], [], [], 2, none, [], false⟩
        1 5).1 = true
    ∧ (mark_notification_read
        (mark_notification_read
          ⟨[⟨1, 1, "T", "M", "system", "task", "1", 0, some 3⟩], [], [], 2, none, [], false⟩
          1 5).2 1 9).2.notifications
      = [⟨1, 1, "T", "M", "system", "task", "1", 0, some 3⟩].map (fun n =>
          if n.notification_id = 1 then { n with read_at := some 9 } else n) := by
  have h := C1_amended
    ⟨[⟨1, 1, "T", "M", "system", "task", "1", 0, some 3⟩], [], [], 2, none, [], false⟩
    1 5 9 rfl
  exact ⟨h.1, h.2.2⟩

/-- C2: the claim is false on the code.  With zero users holding the role,
`notify_by_role` hits `if not users: return False` and reports failure
(and creates nothing), instead of success-with-zero-recipients. -/
theorem C2_counterexample :
    (notify_by_role NOTIFICATION_TYPES ⟨[], [⟨7, "operator"⟩], [], 1, none, [], false⟩
        "manager" "stage_completed" "project" "1" (some "Project done") "normal" 0).1 = false
    ∧ (notify_by_role NOTIFICATION_TYPES ⟨[], [⟨7, "operator"⟩], [], 1, none, [], false⟩
        "manager" "stage_completed" "project" "1" (some "Project done") "normal" 0).2.notifications
      = [] := by decide

/-- C2 amended: for every role with zero users currently holding it,
`notify_by_role` creates no notifications and returns `False` — it reports
failure, not success-with-zero-recipients. -/
theorem C2_amended (registry : List (String × TypeInfo)) (db : DB)
    (role ty rty rid : String) (details : Option String) (priority : String)
    (now : Nat) (h : db.users.filter (fun u => u.role == role) = []) :
    notify_by_role registry db role ty rty rid details priority now = (false, db) := by
  unfold notify_by_role
  simp [h]

/-- C2 amended, instantiated with a store whose only user is an inspector. -/
theorem C2_amended_witness :
    notify_by_role NOTIFICATION_TYPES ⟨[], [⟨3, "inspector"⟩], [], 1, none, [], false⟩
        "manager" "issue_reported" "issue" "5" (some "Critical issue") "urgent" 2
      = (false, ⟨[], [⟨3, "inspector"⟩], [], 1, none, [], false⟩) :=
  C2_amended NOTIFICATION_TYPES _ "manager" "issue_reported" "issue" "5"
    (some "Critical issue") "urgent" 2 (by decide)

/-- C5: the `notifications` table has no priority column and the INSERT in
`create_notification` lists none, so the `priority` argument is discarded
entirely: the result of `create_notification` — return value and database
state alike — is the same for any two priority arguments, and the stored
record carries no priority.  (The code's own `render_notification_item`
nevertheless reads `notification['priority']`, which the retrieval path can
never supply.) -/
theorem C5_priority_dropped (registry : List (String × TypeInfo)) (db : DB)
    (u : Nat) (ty rty rid : String) (details : Option String) (p1 p2 : String)
    (now : Nat) :
    create_notification registry db u ty rty rid details p1 now
      = create_notification registry db u ty rty rid details p2 now := rfl

/-- C6: `get_unread_notification_count` and the unread-only
`get_user_notifications` apply the same filter (`user_id = ?` and
`read_at IS NULL`), so whenever the LIMIT does not truncate the list (the
`limit = ∞` reading of the claim), the count equals the length of the
list. -/
theorem C6_count_consistent_with_list (registry : List (String × TypeInfo))
    (db : DB) (u limit : Nat) (h : get_unread_notification_count db u ≤ limit) :
    (get_user_notifications registry db u limit false).length
      = get_unread_notification_count db u := by
  unfold get_user_notifications get_unread_notification_count
  rw [List.length_map, List.length_take, length_sortByCreatedDesc]
  have hfil : db.notifications.filter (notifFilter u false)
      = db.notifications.filter (fun n => n.user_id == u && n.read_at.isNone) := by
    apply List.filter_congr
    intro n _
    simp [notifFilter]
  rw [hfil]
  exact Nat.min_eq_right h

/-- C6, instantiated on a store with one unread and one read notification
for user 1 and an unread one for user 2. -/
theorem C6_witness :
    get_unread_notification_count
      ⟨[⟨1, 1, "A", "m1", "system", "task", "1", 5, none⟩,
        ⟨2, 1, "B", "m2", "mention", "task", "2", 3, some 4⟩,
        ⟨3, 2, "C", "m3", "system", "task", "3", 9, none⟩], [], [], 4, none, [], false⟩ 1 ≤ 20
    ∧ (get_user_notifications NOTIFICATION_TYPES
        ⟨[⟨1, 1, "A", "m1", "system", "task", "1", 5, none⟩,
          ⟨2, 1, "B", "m2", "mention", "task", "2", 3, some 4⟩,
          ⟨3, 2, "C", "m3", "system", "task", "3", 9, none⟩], [], [], 4, none, [], false⟩
        1 20 false).length
      = get_unread_notification_count
        ⟨[⟨1, 1, "A", "m1", "system", "task", "1", 5, none⟩,
          ⟨2, 1, "B", "m2", "mention", "task", "2", 3, some 4⟩,
          ⟨3, 2, "C", "m3", "system", "task", "3", 9, none⟩], [], [], 4, none, [], false⟩ 1 :=
  ⟨by decide,
    C6_count_consistent_with_list NOTIFICATION_TYPES
      ⟨[⟨1, 1, "A", "m1", "system", "task", "1", 5, none⟩,
        ⟨2, 1, "B", "m2", "mention", "task", "2", 3, some 4⟩,
        ⟨3, 2, "C", "m3", "system", "task", "3", 9, none⟩], [], [], 4, none, [], false⟩
      1 20 (by decide)⟩

/-- Evaluation of `mark_all_notifications_read`: the bulk UPDATE re-stamps
exactly the user's unread rows and commits; the audit write then raises
(NULL entity id into a NOT NULL column), no audit row is appended, and the
function returns `False` — on every input. -/
lemma mark_all_notifications_read_eq (db : DB) (u now : Nat) :
    mark_all_notifications_read db u now
      = (false, { db with
          notifications := db.notifications.map (fun n =>
            if n.user_id == u && n.read_at.isNone then { n with read_at := some now }
            else n) }) := by
  unfold mark_all_notifications_read log_audit
  simp

/-- C3: the claim is false on the code in its return-value part:
`mark_all_notifications_read` discards the row count that `execute_update`
returns and yields the same boolean — `False`, because its own audit write
(NULL entity id into the NOT NULL `audit_log.entity_id`) always raises —
for a run that affects 2 records and a run that affects 0, so its return
value is not the count affected. -/
theorem C3_counterexample :
    (mark_all_notifications_read
        ⟨[⟨1, 1, "T", "M", "system", "task", "1", 0, none⟩,
          ⟨2, 1, "U", "N", "system", "task", "2", 1, none⟩], [], [], 3, none, [], false⟩ 1 9).1
      = (mark_all_notifications_read ⟨[], [], [], 1, none, [], false⟩ 1 9).1
    ∧ (mark_all_notifications_read
        ⟨[⟨1, 1, "T", "M", "system", "task", "1", 0, none⟩,
          ⟨2, 1, "U", "N", "system", "task", "2", 1, none⟩], [], [], 3, none, [], false⟩ 1 9).1
      = false
    ∧ mark_all_rowcount
        ⟨[⟨1, 1, "T", "M", "system", "task", "1", 0, none⟩,
          ⟨2, 1, "U", "N", "system", "task", "2", 1, none⟩], [], [], 3, none, [], false⟩ 1 = 2
    ∧ mark_all_rowcount ⟨[], [], [], 1, none, [], false⟩ 1 = 0 := by decide

/-- C3 amended: the bulk UPDATE of `mark_all_read` sets `read_at` for
exactly the user's currently-unread notifications in one logical
operation and leaves every other notification unchanged; run twice in
sequence, the second call affects 0 records, changes nothing, and the
unread count is 0 after each call.  But the function does not return the
count affected: it discards the row count `execute_update` computes and
returns a boolean — in fact always `False`, because its audit write binds
a NULL entity id into the NOT NULL `audit_log.entity_id` column, raises,
and lands in the generic handler after the UPDATE has committed. -/
theorem C3_amended (db : DB) (u now now2 : Nat) :
    (mark_all_notifications_read db u now).1 = false
    ∧ (∀ n ∈ db.notifications, n.user_id = u → n.read_at = none →
        { n with read_at := some now } ∈ (mark_all_notifications_read db u now).2.notifications)
    ∧ (∀ n ∈ db.notifications, (n.user_id ≠ u ∨ n.read_at ≠ none) →
        n ∈ (mark_all_notifications_read db u now).2.notifications)
    ∧ get_unread_notification_count (mark_all_notifications_read db u now).2 u = 0
    ∧ mark_all_rowcount (mark_all_notifications_read db u now).2 u = 0
    ∧ (mark_all_notifications_read (mark_all_notifications_read db u now).2 u now2).2.notifications
        = (mark_all_notifications_read db u now).2.notifications
    ∧ get_unread_notification_count
        (mark_all_notifications_read (mark_all_notifications_read db u now).2 u now2).2 u = 0 := by
  have hnone : ∀ m ∈ db.notifications.map (fun n =>
      if n.user_id == u && n.read_at.isNone then { n with read_at := some now } else n),
      (m.user_id == u && m.read_at.isNone) = false := by
    intro m hm
    obtain ⟨n, hn, rfl⟩ := List.mem_map.mp hm
    by_cases hn2 : (n.user_id == u && n.read_at.isNone) = true
    · simp [hn2]
    · simp only [Bool.not_eq_true] at hn2
      simp [hn2]
  have hzero : ∀ (l : List Notification),
      (∀ m ∈ l, (m.user_id == u && m.read_at.isNone) = false) →
      (l.filter (fun n => n.user_id == u && n.read_at.isNone)).length = 0 := by
    intro l hl
    rw [List.length_eq_zero, List.filter_eq_nil_iff]
    intro m hm
    simp [hl m hm]
  have hnone2 : ∀ m ∈ (db.notifications.map (fun n =>
      if n.user_id == u && n.read_at.isNone then { n with read_at := some now } else n)).map
        (fun n => if n.user_id == u && n.read_at.isNone then { n with read_at := some now2 } else n),
      (m.user_id == u && m.read_at.isNone) = false := by
    intro m hm
    obtain ⟨m2, hm2, rfl⟩ := List.mem_map.mp hm
    have h2 := hnone m2 hm2
    simp [h2]
  have hid : ∀ m ∈ db.notifications.map (fun n =>
      if n.user_id == u && n.read_at.isNone then { n with read_at := some now } else n),
      (if m.user_id == u && m.read_at.isNone then { m with read_at := some now2 } else m) = m := by
    intro m hm
    simp [hnone m hm]
  have heq := mark_all_notifications_read_eq db u now
  have hsnd : (mark_all_notifications_read db u now).2
      = { db with
          notifications := db.notifications.map (fun n =>
            if n.user_id == u && n.read_at.isNone then { n with read_at := some now }
            else n) } :=
    congrArg Prod.snd heq
  have heq2 := mark_all_notifications_read_eq
    { db with
      notifications := db.notifications.map (fun n =>
        if n.user_id == u && n.read_at.isNone then { n with read_at := some now }
        else n) }
    u now2
  refine ⟨?_, ?_, ?_, ?_, ?_, ?_, ?_⟩
  · rw [heq]
  · intro n hn h1 h2
    rw [hsnd]
    exact List.mem_map.mpr ⟨n, hn, by simp [h1, h2]⟩
  · intro n hn h12
    rw [hsnd]
    refine List.mem_map.mpr ⟨n, hn, ?_⟩
    rcases h12 with h1 | h2
    · simp [h1]
    · rcases hh : n.read_at with _ | v
      · exact absurd hh h2
      · simp [hh]
  · rw [hsnd]
    exact hzero _ hnone
  · rw [hsnd]
    exact hzero _ hnone
  · rw [hsnd, heq2]
    exact (List.map_congr_left hid).trans (List.map_id _)
  · rw [hsnd, heq2]
    exact hzero _ hnone2

/-- C4: the claim is false on the code.  `create_notification` returns only
a boolean, never the created record or its id — two runs that assign
different ids (1 and 7) both return the same value — and that boolean is
`False` even though the record was persisted, because the follow-up audit
write (NULL entity id into the NOT NULL `audit_log.entity_id`) always
raises into create's generic handler; there is no run on which create
returns the created record. -/
theorem C4_counterexample :
    (create_notification NOTIFICATION_TYPES ⟨[], [], [], 1, none, [], false⟩ 1 "system"
        "task" "1" (some "x") "normal" 0).1 = false
    ∧ (create_notification NOTIFICATION_TYPES ⟨[], [], [], 7, none, [], false⟩ 1 "system"
        "task" "1" (some "x") "normal" 0).1 = false
    ∧ ((create_notification NOTIFICATION_TYPES ⟨[], [], [], 1, none, [], false⟩ 1 "system"
        "task" "1" (some "x") "normal" 0).2.notifications.map (·.notification_id)) = [1]
    ∧ ((create_notification NOTIFICATION_TYPES ⟨[], [], [], 7, none, [], false⟩ 1 "system"
        "task" "1" (some "x") "normal" 0).2.notifications.map (·.notification_id)) = [7] := by
  decide

/-- C4 amended: when the notification INSERT itself does not raise, create
resolves the title and message through the registry and persists a new
record carrying the next assigned id and `read_at = null`, but it does not
return the created record or its id — it returns a boolean, and in fact
always `False`: the subsequent audit write binds a NULL entity id into the
NOT NULL `audit_log.entity_id` column, raises, and is caught by create's
generic handler after the row has committed. -/
theorem C4_amended (registry : List (String × TypeInfo)) (db : DB) (u : Nat)
    (ty rty rid : String) (details : Option String) (priority : String) (now : Nat)
    (hins : db.insert_fails.contains u = false) :
    create_notification registry db u ty rty rid details priority now
      = (false, { db with
          notifications := db.notifications ++ [createdRow registry db u ty rty rid details now],
          next_notification_id := db.next_notification_id + 1 })
    ∧ (createdRow registry db u ty rty rid details now).read_at = none
    ∧ (createdRow registry db u ty rty rid details now).title = registryTitle registry ty
    ∧ (createdRow registry db u ty rty rid details now).message
        = formatDetails (registryMessage registry ty) (details.getD "")
    ∧ (createdRow registry db u ty rty rid details now).notification_id
        = db.next_notification_id := by
  have hins2 : u ∉ db.insert_fails := by simpa using hins
  refine ⟨?_, rfl, rfl, rfl, rfl⟩
  rw [create_notification_eq]
  simp [hins2]

/-- C4 amended, instantiated: create run by logged-in user 3 for recipient
2 persists the row with id 1 and `read_at = null` but returns `False`. -/
theorem C4_amended_witness :
    create_notification NOTIFICATION_TYPES ⟨[], [], [], 1, some 3, [], false⟩ 2
        "task_assigned" "task" "7" (some "Fix it") "high" 11
      = (false, { (⟨[], [], [], 1, some 3, [], false⟩ : DB) with
          notifications := [createdRow NOTIFICATION_TYPES ⟨[], [], [], 1, some 3, [], false⟩ 2
            "task_assigned" "task" "7" (some "Fix it") 11],
          next_notification_id := 2 })
    ∧ (createdRow NOTIFICATION_TYPES ⟨[], [], [], 1, some 3, [], false⟩ 2
        "task_assigned" "task" "7" (some "Fix it") 11).read_at = none := by
  have h := C4_amended NOTIFICATION_TYPES ⟨[], [], [], 1, some 3, [], false⟩ 2
    "task_assigned" "task" "7" (some "Fix it") "high" 11 rfl
  exact ⟨h.1, h.2.1⟩

/-- C7: the claim is false on the code in its success-reporting half.  In a
run where every recipient's notification INSERT succeeds, the overall
result is still `False`: every `create_notification` call returns `False`
(its audit write binds a NULL entity id into the NOT NULL
`audit_log.entity_id` column and raises), so `notify_multiple_users`
reports failure for this two-recipient list even though both notifications
were persisted — "success iff every recipient's creation succeeded" fails
in the only direction the program can exhibit. -/
theorem C7_counterexample :
    (notify_multiple_users NOTIFICATION_TYPES ⟨[], [], [], 1, none, [], false⟩ [1, 2]
        "system" "task" "1" (some "x") "normal" 0).1 = false
    ∧ ((notify_multiple_users NOTIFICATION_TYPES ⟨[], [], [], 1, none, [], false⟩ [1, 2]
        "system" "task" "1" (some "x") "normal" 0).2.notifications.map (·.user_id))
      = [1, 2] := by
  decide

/-- C7 amended: `notify_users` does attempt every remaining recipient after
a failure and never rolls back persisted notifications — every recipient
whose notification INSERT does not raise keeps a matching persisted
notification regardless of failures for others — and its result is the
conjunction of the per-recipient `create_notification` results; but since
every `create_notification` call returns `False` (its audit write violates
the NOT NULL constraint on `audit_log.entity_id`), the overall result is
`True` only for an empty recipient list: for any non-empty list it reports
failure, even when every notification was persisted. -/
theorem C7_amended (registry : List (String × TypeInfo)) (db : DB)
    (ids : List Nat) (ty rty rid : String) (details : Option String)
    (priority : String) (now : Nat) :
    (notify_multiple_users registry db ids ty rty rid details priority now).1
      = ids.isEmpty
    ∧ (∃ tail, (notify_multiple_users registry db ids ty rty rid details priority now).2.notifications
        = db.notifications ++ tail)
    ∧ (∀ u ∈ ids, db.insert_fails.contains u = false →
        ∃ n ∈ (notify_multiple_users registry db ids ty rty rid details priority now).2.notifications,
          n.user_id = u ∧ n.notification_type = ty ∧ n.entity_type = rty
            ∧ n.entity_id = rid) := by
  obtain ⟨h2, h3, h4, h5⟩ :=
    notify_loop_spec registry ty rty rid details priority now ids true db
  refine ⟨?_, h4, h5⟩
  exact h3.trans (Bool.true_and _)

/-- C8: a type key missing from the registry falls back to the inline
default entry inside `create_notification`: the stored title is the
generic `"Notification"`, the stored message is the supplied details
echoed verbatim, the row is persisted exactly as for any other type, and
nothing is raised to the caller — the return flag does not depend on the
type at all (every create returns the same `False`, registered type or
not), so an unrecognized type never blocks notification creation. -/
theorem C8_unknown_type_fallback (registry : List (String × TypeInfo)) (db : DB)
    (u : Nat) (ty ty2 rty rid : String) (details : String) (priority : String)
    (now : Nat) (hty : lookupType ty registry = none)
    (hins : db.insert_fails.contains u = false) :
    (create_notification registry db u ty rty rid (some details) priority now).2.notifications
      = db.notifications
        ++ [⟨db.next_notification_id, u, "Notification", details, ty, rty, rid, now, none⟩]
    ∧ (create_notification registry db u ty rty rid (some details) priority now).1
      = (create_notification registry db u ty2 rty rid (some details) priority now).1 := by
  have hins2 : u ∉ db.insert_fails := by simpa using hins
  rw [create_notification_eq, create_notification_eq]
  simp [hins2, createdRow, registryTitle, registryMessage, hty, default_type_info,
    formatDetails_default]

/-- C8, instantiated: the type `"deployment_started"` is not in
`NOTIFICATION_TYPES`, yet the row is persisted with the generic title and
the details echoed verbatim, and create's return flag is the same as for
the registered type `"system"`. -/
theorem C8_witness :
    lookupType "deployment_started" NOTIFICATION_TYPES = none
    ∧ (create_notification NOTIFICATION_TYPES ⟨[], [], [], 1, none, [], false⟩ 4
        "deployment_started" "system" "0" (some "Build 77 deployed") "low" 6).2.notifications
      = [⟨1, 4, "Notification", "Build 77 deployed", "deployment_started", "system", "0",
          6, none⟩]
    ∧ (create_notification NOTIFICATION_TYPES ⟨[], [], [], 1, none, [], false⟩ 4
        "deployment_started" "system" "0" (some "Build 77 deployed") "low" 6).1
      = (create_notification NOTIFICATION_TYPES ⟨[], [], [], 1, none, [], false⟩ 4
        "system" "system" "0" (some "Build 77 deployed") "low" 6).1 := by
  have h := C8_unknown_type_fallback NOTIFICATION_TYPES ⟨[], [], [], 1, none, [], false⟩ 4
    "deployment_started" "system" "system" "0" "Build 77 deployed" "low" 6 (by decide) rfl
  exact ⟨by decide, h.1, h.2⟩

/-- C9: the claim is false on the code.  `log_audit` contains no
`try`/`except`, so the audit failure is not caught and discarded at the
Audit Log boundary: it propagates into `create_notification`'s generic
handler.  The already-committed notification is indeed kept (not rolled
back) — the store is non-empty afterwards — but the create is reported as
a failure (`False`), not a success. -/
theorem C9_counterexample :
    (create_notification NOTIFICATION_TYPES ⟨[], [], [], 1, none, [], true⟩ 1 "system"
        "task" "1" (some "x") "normal" 0).1 = false
    ∧ (create_notification NOTIFICATION_TYPES ⟨[], [], [], 1, none, [], true⟩ 1 "system"
        "task" "1" (some "x") "normal" 0).2.notifications ≠ [] := by decide

/-- C9 amended: when the audit INSERT fails after the notification INSERT
has committed, the notification is persisted and not rolled back and no
audit row is written, but the exception escapes `log_audit` (which has no
handler of its own) and is caught by `create_notification`'s generic
handler, which reports failure (`False`), not success. -/
theorem C9_amended (registry : List (String × TypeInfo)) (db : DB) (u : Nat)
    (ty rty rid : String) (details : Option String) (priority : String) (now : Nat)
    (hins : db.insert_fails.contains u = false) (ha : db.audit_fails = true) :
    create_notification registry db u ty rty rid details priority now
      = (false, { db with
          notifications := db.notifications ++ [createdRow registry db u ty rty rid details now],
          next_notification_id := db.next_notification_id + 1 }) := by
  have hins2 : u ∉ db.insert_fails := by simpa using hins
  rw [create_notification_eq]
  simp [hins2, ha]

/-- C9 amended, instantiated: with a failing audit path the notification
row is persisted but create returns `False`. -/
theorem C9_amended_witness :
    create_notification NOTIFICATION_TYPES ⟨[], [], [], 1, none, [], true⟩ 2 "system"
        "task" "3" (some "hello") "normal" 4
      = (false, { (⟨[], [], [], 1, none, [], true⟩ : DB) with
          notifications := [createdRow NOTIFICATION_TYPES ⟨[], [], [], 1, none, [], true⟩ 2
            "system" "task" "3" (some "hello") 4],
          next_notification_id := 2 }) :=
  C9_amended NOTIFICATION_TYPES ⟨[], [], [], 1, none, [], true⟩ 2 "system" "task" "3"
    (some "hello") "normal" 4 rfl rfl

/-- C10: display resolution happens at query time.  Every record returned
by `get_user_notifications` carries `icon` and `color` computed from the
registry as it stands at query time (`R2`, with the generic fallback for
unknown types), while its `title` and `message` come from the stored row;
consequently a notification created while the registry was `R1` is listed
with its stored `R1`-derived title and message but with `R2`-derived icon
and color. -/
theorem C10_display_resolved_at_query_time (R1 R2 : List (String × TypeInfo))
    (db : DB) (u : Nat) (ty rty rid : String) (details : Option String)
    (priority : String) (now limit : Nat)
    (hins : db.insert_fails.contains u = false) (ha : db.audit_fails = false)
    (hlim : db.notifications.length + 1 ≤ limit) :
    (∀ d ∈ get_user_notifications R2
        (create_notification R1 db u ty rty rid details priority now).2 u limit true,
      d.icon = registryIcon R2 d.type ∧ d.color = registryColor R2 d.type
      ∧ ∃ n ∈ (create_notification R1 db u ty rty rid details priority now).2.notifications,
          d.title = n.title ∧ d.message = n.message ∧ d.type = n.notification_type)
    ∧ (∃ d ∈ get_user_notifications R2
        (create_notification R1 db u ty rty rid details priority now).2 u limit true,
      d.notification_id = db.next_notification_id ∧ d.type = ty
      ∧ d.title = registryTitle R1 ty
      ∧ d.message = formatDetails (registryMessage R1 ty) (details.getD "")
      ∧ d.icon = registryIcon R2 ty ∧ d.color = registryColor R2 ty) := by
  have hins2 : u ∉ db.insert_fails := by simpa using hins
  have hc : create_notification R1 db u ty rty rid details priority now
      = (false, { db with
          notifications := db.notifications ++ [createdRow R1 db u ty rty rid details now],
          next_notification_id := db.next_notification_id + 1 }) := by
    rw [create_notification_eq]
    simp [hins2]
  rw [hc]
  constructor
  · intro d hd
    simp only [get_user_notifications] at hd
    obtain ⟨n, hn, rfl⟩ := List.mem_map.mp hd
    exact ⟨rfl, rfl, n,
      List.mem_of_mem_filter ((mem_sortByCreatedDesc _ _).mp (List.mem_of_mem_take hn)),
      rfl, rfl, rfl⟩
  · have hmemf : createdRow R1 db u ty rty rid details now
        ∈ (db.notifications ++ [createdRow R1 db u ty rty rid details now]).filter
            (notifFilter u true) := by
      refine List.mem_filter.mpr ⟨?_, ?_⟩
      · exact List.mem_append_right _ (List.mem_singleton.mpr rfl)
      · simp [notifFilter, createdRow]
    have hsort := (mem_sortByCreatedDesc _ _).mpr hmemf
    have hlen : (sortByCreatedDesc
        ((db.notifications ++ [createdRow R1 db u ty rty rid details now]).filter
          (notifFilter u true))).length ≤ limit := by
      rw [length_sortByCreatedDesc]
      refine le_trans (List.length_filter_le _ _) ?_
      simpa using hlim
    have hintake : createdRow R1 db u ty rty rid details now
        ∈ (sortByCreatedDesc
            ((db.notifications ++ [createdRow R1 db u ty rty rid details now]).filter
              (notifFilter u true))).take limit := by
      rw [List.take_of_length_le hlen]
      exact hsort
    refine ⟨enhance R2 (createdRow R1 db u ty rty rid details now), ?_, rfl, rfl, rfl, rfl,
      rfl, rfl⟩
    simp only [get_user_notifications]
    exact List.mem_map_of_mem _ hintake

/-- C10, instantiated: a `"system"` notification created under the original
registry, then listed under a changed registry whose `"system"` entry has a
different icon and color, keeps its stored title and message but is shown
with the new icon and color. -/
theorem C10_witness :
    ∃ d ∈ get_user_notifications [("system", ⟨"⭐", "#123456", "Changed Title", "{details}"⟩)]
        (create_notification NOTIFICATION_TYPES ⟨[], [], [], 1, none, [], false⟩ 1 "system"
          "task" "1" (some "hello") "normal" 0).2 1 20 true,
      d.notification_id = 1 ∧ d.type = "system"
      ∧ d.title = registryTitle NOTIFICATION_TYPES "system"
      ∧ d.message = formatDetails (registryMessage NOTIFICATION_TYPES "system") "hello"
      ∧ d.icon = registryIcon [("system", ⟨"⭐", "#123456", "Changed Title", "{details}"⟩)] "system"
      ∧ d.color = registryColor [("system", ⟨"⭐", "#123456", "Changed Title", "{details}"⟩)] "system" :=
  (C10_display_resolved_at_query_time NOTIFICATION_TYPES
    [("system", ⟨"⭐", "#123456", "Changed Title", "{details}"⟩)]
    ⟨[], [], [], 1, none, [], false⟩ 1 "system" "task" "1" (some "hello") "normal" 0 20
    rfl rfl (by decide)).2

end NotifTracker
